import Mathlib

/-!
Shallow embedding of `src/cdk/lambda/pipeline-notification/index.js`, the
CodePipeline state-change Lambda of aws-friends-backend. The handler reads
a per-pipeline failure counter from a DynamoDB table, increments it on a
FAILED event, posts Discord webhook notifications, and disables the
pipeline via the CodePipeline API once the counter reaches a threshold.

The JavaScript is modelled as pure functions: external interactions are
recorded in a trace of `Effect` values, the DynamoDB table is a partial
map from pipeline name to stored count, thrown JS errors become
`Except JsError`, and the outcome of each HTTP call to the Discord webhook
is supplied by a boolean oracle (indexed by the order of the webhook calls
inside one handler execution).
-/

/-- Errors the Lambda can throw (the `reject` / `throw` paths of index.js). -/
inductive JsError
  | webhookNotSet
  | requestFailed
deriving DecidableEq, Repr

/-- One interaction with an external service, in the order the code awaits them.
`dynamoGet`/`dynamoPut` are the DocumentClient calls on the failure-count
table, `codepipelineUpdate` is `codepipeline.updatePipeline`, and
`discordPost` is the HTTPS POST of `sendDiscordNotification` (message and
embed color). -/
inductive Effect
  | dynamoGet (table : String) (pipelineName : String)
  | dynamoPut (table : String) (pipelineName : String) (count : Nat)
  | codepipelineUpdate (pipelineName : String) (disabled : Bool)
  | discordPost (message : String) (color : Nat)
deriving DecidableEq, Repr

/-- The external service behind an effect. -/
inductive ExternalService
  | dynamodb
  | discordWebhook
  | codepipeline
deriving DecidableEq, Repr

def Effect.service : Effect → ExternalService
  | .dynamoGet _ _ => .dynamodb
  | .dynamoPut _ _ _ => .dynamodb
  | .codepipelineUpdate _ _ => .codepipeline
  | .discordPost _ _ => .discordWebhook

/-- The environment variables read by index.js. `maxFailures` is the parsed
numeric value of `MAX_FAILURES` (`none` when the variable is unset, in which
case the code falls back to `'3'`; the CDK stack sets it to `'3'`). -/
structure LambdaEnv where
  discordWebhookUrl : Option String
  maxFailures : Option Nat
  failureCountTable : String
  discordMentionUserId : Option String

/-- `parseInt(process.env.MAX_FAILURES || '3')` from `updatePipelineState`. -/
def maxFailuresValue (env : LambdaEnv) : Nat :=
  env.maxFailures.getD 3

/-- The DynamoDB failure-count table: pipeline name ↦ stored `count`
(`none` when no item exists for that key). -/
def Table : Type := String → Option Nat

def Table.put (t : Table) (k : String) (v : Nat) : Table :=
  fun k' => if k' = k then some v else t k'

def emptyTable : Table := fun _ => none

/-- The CloudWatch event fields the handler reads:
`event.detail.pipeline`, `event.detail['execution-id']`, `event.detail.state`. -/
structure PipelineEvent where
  pipeline : String
  executionId : String
  state : String
deriving DecidableEq, Repr

/-- The green success message template of the handler. -/
def successMessage (pipelineName executionId : String) : String :=
  "✅ パイプライン `" ++ pipelineName ++ "` が正常に完了しました\n実行ID: `" ++
    executionId ++ "`"

/-- The red failure message template of the handler (includes the updated
failure count). -/
def failureMessage (mentionText pipelineName executionId : String)
    (failureCount : Nat) : String :=
  mentionText ++ "❌ パイプライン `" ++ pipelineName ++ "` が失敗しました\n実行ID: `" ++
    executionId ++ "`\n失敗回数: " ++ toString failureCount ++ "回"

/-- The orange disabled-warning message template of the handler. -/
def disabledMessage (mentionText pipelineName executionId : String) : String :=
  mentionText ++ "⚠️ パイプライン `" ++ pipelineName ++
    "` が連続失敗により無効化されました\n実行ID: `" ++ executionId ++ "`"

/-- `const mentionText = mentionUser ? ... : ''` from the handler. -/
def mentionTextOf (env : LambdaEnv) : String :=
  match env.discordMentionUserId with
  | some u => "<@" ++ u ++ "> "
  | none => ""

/-- `sendDiscordNotification` from index.js. It throws when
`DISCORD_WEBHOOK_URL` is unset; otherwise it makes exactly one HTTPS POST
to the webhook and resolves iff the response status is 2xx (`httpOk` is
that outcome). Returns the effects performed and the JS result. -/
def sendDiscordNotification (env : LambdaEnv) (httpOk : Bool)
    (message : String) (color : Nat) : List Effect × Except JsError Unit :=
  match env.discordWebhookUrl with
  | none => ([], .error .webhookNotSet)
  | some _ =>
    ([.discordPost message color], if httpOk then .ok () else .error .requestFailed)

/-- `updatePipelineState` from index.js: when `failureCount` has reached
`parseInt(process.env.MAX_FAILURES || '3')` it disables the pipeline via
the CodePipeline API, resets the stored count to 0 and returns `true`;
otherwise it does nothing and returns `false`. -/
def updatePipelineState (env : LambdaEnv) (t : Table) (pipelineName : String)
    (failureCount : Nat) : Bool × Table × List Effect :=
  if maxFailuresValue env ≤ failureCount then
    (true, t.put pipelineName 0,
      [.codepipelineUpdate pipelineName true,
       .dynamoPut env.failureCountTable pipelineName 0])
  else
    (false, t, [])

/-- The outcome of one handler execution: the JS result (`.error` when the
handler rethrows), the table after all DynamoDB writes, and the trace of
external interactions in program order. -/
structure HandlerRun where
  result : Except JsError Unit
  table : Table
  effects : List Effect

/-- `exports.handler` from index.js. `httpOk i` is the HTTP outcome of the
`i`-th Discord webhook call of this execution. On SUCCEEDED it posts the
green message and returns. On FAILED it reads the stored count, writes the
incremented count back, posts the red message, then runs
`updatePipelineState` and, when the pipeline was disabled, posts the
orange warning. Any other state falls through. The surrounding
`try`/`catch` logs and rethrows, so errors propagate unchanged. -/
def handler (env : LambdaEnv) (httpOk : Nat → Bool) (t : Table)
    (event : PipelineEvent) : HandlerRun :=
  let pipelineName := event.pipeline
  let executionId := event.executionId
  let state := event.state
  if state = "SUCCEEDED" then
    let s := sendDiscordNotification env (httpOk 0)
      (successMessage pipelineName executionId) 0x00ff00
    { result := s.2, table := t, effects := s.1 }
  else if state = "FAILED" then
    let item := t pipelineName
    let failureCount := item.getD 0 + 1
    let t1 := t.put pipelineName failureCount
    let fx1 := [Effect.dynamoGet env.failureCountTable pipelineName,
                Effect.dynamoPut env.failureCountTable pipelineName failureCount]
    let mentionText := mentionTextOf env
    let red := sendDiscordNotification env (httpOk 0)
      (failureMessage mentionText pipelineName executionId failureCount) 0xff0000
    match red.2 with
    | .error e => { result := .error e, table := t1, effects := fx1 ++ red.1 }
    | .ok _ =>
      let upd := updatePipelineState env t1 pipelineName failureCount
      if upd.1 then
        let warn := sendDiscordNotification env (httpOk 1)
          (disabledMessage mentionText pipelineName executionId) 0xffa500
        { result := warn.2, table := upd.2.1,
          effects := fx1 ++ red.1 ++ upd.2.2 ++ warn.1 }
      else
        { result := .ok (), table := upd.2.1, effects := fx1 ++ red.1 ++ upd.2.2 }
  else
    { result := .ok (), table := t, effects := [] }

/-- Run a sequence of handler executions, each event paired with its own
HTTP-outcome oracle, threading the DynamoDB table through. -/
def runHistory (env : LambdaEnv) (t : Table)
    (evs : List (PipelineEvent × (Nat → Bool))) : Table :=
  evs.foldl (fun s p => (handler env p.2 s p.1).table) t

def isOk : Except JsError Unit → Bool
  | .ok _ => true
  | .error _ => false

/-- Every execution of the history completes without throwing. -/
def historyCompletes (env : LambdaEnv) (t : Table) :
    List (PipelineEvent × (Nat → Bool)) → Bool
  | [] => true
  | p :: rest =>
    let r := handler env p.2 t p.1
    isOk r.result && historyCompletes env r.table rest

/-- The Discord webhook posts of a trace, in order (message and color). -/
def discordPosts (fx : List Effect) : List (String × Nat) :=
  fx.filterMap fun e =>
    match e with
    | .discordPost m c => some (m, c)
    | _ => none

/-- Modelled from the spec claim wording, for comparison with the code:
the number of FAILED events for `name` seen since the most recent
SUCCEEDED event for `name` (for histories in which no reset-on-disable
occurs). -/
def specFailuresSinceLastSuccess (name : String) (evs : List PipelineEvent) : Nat :=
  evs.foldl
    (fun acc e =>
      if e.pipeline = name then
        if e.state = "FAILED" then acc + 1
        else if e.state = "SUCCEEDED" then 0
        else acc
      else acc)
    0

/-- A concrete environment: webhook configured, `MAX_FAILURES` unset so the
threshold defaults to 3, no mention user. -/
def envD : LambdaEnv :=
  { discordWebhookUrl := some "https://discord.example/webhook"
    maxFailures := none
    failureCountTable := "FailureCount"
    discordMentionUserId := none }

def evFailed : PipelineEvent :=
  { pipeline := "p", executionId := "x1", state := "FAILED" }

def evSucceeded : PipelineEvent :=
  { pipeline := "p", executionId := "x2", state := "SUCCEEDED" }

/-- Oracle under which every Discord HTTP call returns a 2xx status. -/
def alwaysOk : Nat → Bool := fun _ => true

/-- Oracle under which every Discord HTTP call fails (non-2xx or network error). -/
def redFails : Nat → Bool := fun _ => false

/-- A list of effects whose first two elements are known is that shape. -/
theorem take_two_shape (l : List Effect) (g p : Effect) (h : l.take 2 = [g, p]) :
    ∃ rest, l = g :: p :: rest := by
  match l with
  | [] => simp at h
  | [a] => simp at h
  | a :: b :: rest =>
    simp [List.take] at h
    exact ⟨rest, by rw [h.1, h.2]⟩

/-- One completing handler execution preserves the invariant that every stored
count is below the threshold, provided the threshold is at least 1. -/
theorem handler_preserves_below (env : LambdaEnv) (httpOk : Nat → Bool)
    (t : Table) (event : PipelineEvent)
    (hmax : 1 ≤ maxFailuresValue env)
    (hinv : ∀ name, (t name).getD 0 < maxFailuresValue env)
    (hok : isOk (handler env httpOk t event).result = true) :
    ∀ name, ((handler env httpOk t event).table name).getD 0 < maxFailuresValue env := by
  intro name
  by_cases h1 : event.state = "SUCCEEDED"
  · unfold handler
    rw [if_pos h1]
    exact hinv name
  · by_cases h2 : event.state = "FAILED"
    · unfold handler at hok ⊢
      rw [if_neg h1, if_pos h2] at hok ⊢
      cases henv : env.discordWebhookUrl
      · simp [sendDiscordNotification, henv, isOk] at hok
      · cases ho0 : httpOk 0
        · simp [sendDiscordNotification, henv, ho0, isOk] at hok
        · by_cases hth : maxFailuresValue env ≤ (t event.pipeline).getD 0 + 1 <;>
            by_cases hn : name = event.pipeline
          · simp [sendDiscordNotification, henv, ho0, updatePipelineState, hth,
              Table.put, hn]
            omega
          · simp [sendDiscordNotification, henv, ho0, updatePipelineState, hth,
              Table.put, hn]
            exact hinv name
          · simp [sendDiscordNotification, henv, ho0, updatePipelineState, hth,
              Table.put, hn]
            omega
          · simp [sendDiscordNotification, henv, ho0, updatePipelineState, hth,
              Table.put, hn]
            exact hinv name
    · unfold handler
      rw [if_neg h1, if_neg h2]
      exact hinv name

/-- A history of completing executions preserves the below-threshold invariant. -/
theorem runHistory_below (env : LambdaEnv) (hmax : 1 ≤ maxFailuresValue env) :
    ∀ (evs : List (PipelineEvent × (Nat → Bool))) (t : Table),
      (∀ name, (t name).getD 0 < maxFailuresValue env) →
      historyCompletes env t evs = true →
      ∀ name, (runHistory env t evs name).getD 0 < maxFailuresValue env := by
  intro evs
  induction evs with
  | nil => intro t hinv _ name; exact hinv name
  | cons p rest ih =>
    intro t hinv hc name
    simp only [historyCompletes, Bool.and_eq_true] at hc
    have step := handler_preserves_below env p.2 t p.1 hmax hinv hc.1
    exact ih _ step hc.2 name

/-- Claim C1 (code evaluated at the failing input): the durable counter does
not track consecutive failures. After the history FAILED, SUCCEEDED, FAILED
for pipeline `p` (all notifications delivered), the stored count is 2,
while the number of FAILED events since the most recent SUCCEEDED event is
1 — the SUCCEEDED branch of the handler never resets the counter. -/
theorem failure_counter_not_reset_on_success :
    runHistory envD emptyTable
      [(evFailed, alwaysOk), (evSucceeded, alwaysOk), (evFailed, alwaysOk)] "p" =
      some 2 ∧
    specFailuresSinceLastSuccess "p" [evFailed, evSucceeded, evFailed] = 1 ∧
    ¬ runHistory envD emptyTable
        [(evFailed, alwaysOk), (evSucceeded, alwaysOk), (evFailed, alwaysOk)] "p" =
      some (specFailuresSinceLastSuccess "p" [evFailed, evSucceeded, evFailed]) := by
  refine ⟨by decide, by decide, by decide⟩

/-- Claim C2, counterexample: when the HTTP request to the webhook fails,
`sendDiscordNotification` makes exactly one attempt — not two or more — and
fails immediately, so there is no retry and no backoff. -/
theorem sendDiscordNotification_no_retry_cex :
    (sendDiscordNotification envD false (failureMessage "" "p" "x1" 1) 0xff0000).1.length = 1 ∧
    ¬ 2 ≤ (sendDiscordNotification envD false (failureMessage "" "p" "x1" 1) 0xff0000).1.length ∧
    (sendDiscordNotification envD false (failureMessage "" "p" "x1" 1) 0xff0000).2 =
      .error .requestFailed := by
  refine ⟨by decide, by decide, rfl⟩

/-- Claim C2 as amended: `sendDiscordNotification` makes at most one HTTP
attempt per call, and it succeeds exactly when the webhook URL is configured
and that single request gets a 2xx response; any failure is final. -/
theorem sendDiscordNotification_single_attempt (env : LambdaEnv) (httpOk : Bool)
    (message : String) (color : Nat) :
    (sendDiscordNotification env httpOk message color).1.length ≤ 1 ∧
    ((sendDiscordNotification env httpOk message color).2 = .ok () ↔
      env.discordWebhookUrl.isSome = true ∧ httpOk = true) := by
  unfold sendDiscordNotification
  cases henv : env.discordWebhookUrl <;> cases httpOk <;> simp

/-- Claim C3: `updatePipelineState` returns `true` and issues the CodePipeline
`updatePipeline` call with `disabled: true` exactly when the failure count has
reached `MAX_FAILURES` (parsed from the environment, defaulting to 3); below
the threshold it returns `false` and performs no disable call. -/
theorem updatePipelineState_threshold_spec (env : LambdaEnv) (t : Table)
    (name : String) (failureCount : Nat) :
    ((updatePipelineState env t name failureCount).1 = true ↔
      maxFailuresValue env ≤ failureCount) ∧
    (Effect.codepipelineUpdate name true ∈
        (updatePipelineState env t name failureCount).2.2 ↔
      maxFailuresValue env ≤ failureCount) ∧
    maxFailuresValue env = env.maxFailures.getD 3 := by
  refine ⟨?_, ?_, rfl⟩ <;>
  · unfold updatePipelineState
    by_cases h : maxFailuresValue env ≤ failureCount <;> simp [h]

/-- Claim C4: on a FAILED event the handler first reads the stored counter
(absent record counted as 0), then writes exactly the incremented value back
under the same pipeline-name key, and — when the execution completes — the
disable call happens precisely when that incremented value reaches the
threshold. -/
theorem handler_failed_read_increment_write (env : LambdaEnv) (httpOk : Nat → Bool)
    (t : Table) (event : PipelineEvent) (hs : event.state = "FAILED") :
    (handler env httpOk t event).effects.take 2 =
      [Effect.dynamoGet env.failureCountTable event.pipeline,
       Effect.dynamoPut env.failureCountTable event.pipeline
         ((t event.pipeline).getD 0 + 1)] ∧
    (isOk (handler env httpOk t event).result = true →
      (Effect.codepipelineUpdate event.pipeline true ∈
          (handler env httpOk t event).effects ↔
        maxFailuresValue env ≤ (t event.pipeline).getD 0 + 1)) := by
  have h1 : ¬ event.state = "SUCCEEDED" := by rw [hs]; decide
  unfold handler
  rw [if_neg h1, if_pos hs]
  by_cases hth : maxFailuresValue env ≤ (t event.pipeline).getD 0 + 1 <;>
    cases henv : env.discordWebhookUrl <;> cases ho0 : httpOk 0 <;>
      cases ho1 : httpOk 1 <;>
        simp [sendDiscordNotification, henv, ho0, ho1, updatePipelineState, hth, isOk]

/-- Witness for claim C4 at a concrete FAILED event over the empty table. -/
theorem handler_failed_read_increment_write_witness :
    evFailed.state = "FAILED" ∧
    ((handler envD alwaysOk emptyTable evFailed).effects.take 2 =
      [Effect.dynamoGet envD.failureCountTable evFailed.pipeline,
       Effect.dynamoPut envD.failureCountTable evFailed.pipeline
         ((emptyTable evFailed.pipeline).getD 0 + 1)] ∧
    (isOk (handler envD alwaysOk emptyTable evFailed).result = true →
      (Effect.codepipelineUpdate evFailed.pipeline true ∈
          (handler envD alwaysOk emptyTable evFailed).effects ↔
        maxFailuresValue envD ≤ (emptyTable evFailed.pipeline).getD 0 + 1))) :=
  ⟨by decide, handler_failed_read_increment_write envD alwaysOk emptyTable evFailed (by decide)⟩

/-- Claim C5: with the webhook configured and deliveries succeeding, the
handler posts exactly the green success message on SUCCEEDED, and on FAILED
exactly the red failure message carrying the updated count, followed by the
orange disabled warning precisely when the threshold was reached on that
event. -/
theorem handler_terminal_notifications (env : LambdaEnv) (httpOk : Nat → Bool)
    (t : Table) (event : PipelineEvent)
    (hw : env.discordWebhookUrl.isSome = true) (ho : ∀ i, httpOk i = true) :
    (event.state = "SUCCEEDED" →
      discordPosts (handler env httpOk t event).effects =
        [(successMessage event.pipeline event.executionId, 0x00ff00)]) ∧
    (event.state = "FAILED" →
      discordPosts (handler env httpOk t event).effects =
        (failureMessage (mentionTextOf env) event.pipeline event.executionId
            ((t event.pipeline).getD 0 + 1), 0xff0000) ::
          (if maxFailuresValue env ≤ (t event.pipeline).getD 0 + 1 then
            [(disabledMessage (mentionTextOf env) event.pipeline event.executionId,
              0xffa500)]
          else [])) := by
  obtain ⟨u, henv⟩ := Option.isSome_iff_exists.mp hw
  constructor
  · intro hst
    unfold handler
    rw [if_pos hst]
    simp [sendDiscordNotification, henv, ho 0, discordPosts]
  · intro hst
    have h1 : ¬ event.state = "SUCCEEDED" := by rw [hst]; decide
    unfold handler
    rw [if_neg h1, if_pos hst]
    by_cases hth : maxFailuresValue env ≤ (t event.pipeline).getD 0 + 1 <;>
      simp [sendDiscordNotification, henv, ho 0, ho 1, updatePipelineState, hth,
        discordPosts]

/-- Witness for claim C5 at a concrete SUCCEEDED event. -/
theorem handler_terminal_notifications_witness :
    envD.discordWebhookUrl.isSome = true ∧ (∀ i, alwaysOk i = true) ∧
    ((evSucceeded.state = "SUCCEEDED" →
      discordPosts (handler envD alwaysOk emptyTable evSucceeded).effects =
        [(successMessage evSucceeded.pipeline evSucceeded.executionId, 0x00ff00)]) ∧
    (evSucceeded.state = "FAILED" →
      discordPosts (handler envD alwaysOk emptyTable evSucceeded).effects =
        (failureMessage (mentionTextOf envD) evSucceeded.pipeline evSucceeded.executionId
            ((emptyTable evSucceeded.pipeline).getD 0 + 1), 0xff0000) ::
          (if maxFailuresValue envD ≤ (emptyTable evSucceeded.pipeline).getD 0 + 1 then
            [(disabledMessage (mentionTextOf envD) evSucceeded.pipeline
                evSucceeded.executionId, 0xffa500)]
          else []))) :=
  ⟨by decide, fun _ => rfl,
    handler_terminal_notifications envD alwaysOk emptyTable evSucceeded (by decide)
      (fun _ => rfl)⟩

/-- Claim C6, counterexample: a FAILED event that reaches the threshold makes
the handler call the CodePipeline `updatePipeline` API — a third external
service that is neither the key-value store nor the Discord webhook. -/
theorem handler_codepipeline_api_cex :
    Effect.codepipelineUpdate "p" true ∈
      (handler envD alwaysOk (emptyTable.put "p" 2) evFailed).effects ∧
    (Effect.codepipelineUpdate "p" true).service ∉
      [ExternalService.dynamodb, ExternalService.discordWebhook] := by
  refine ⟨by decide, by decide⟩

/-- Claim C6 as amended: every effect of every handler execution targets one
of exactly three external services — DynamoDB, the Discord webhook, or
CodePipeline — and the CodePipeline API is called only on a FAILED event
whose incremented count reaches the threshold. -/
theorem handler_effects_services (env : LambdaEnv) (httpOk : Nat → Bool)
    (t : Table) (event : PipelineEvent) :
    ∀ e ∈ (handler env httpOk t event).effects,
      e.service ∈ [ExternalService.dynamodb, .discordWebhook, .codepipeline] ∧
      (e.service = .codepipeline →
        event.state = "FAILED" ∧
        maxFailuresValue env ≤ (t event.pipeline).getD 0 + 1) := by
  intro e he
  refine ⟨by cases e <;> simp [Effect.service], ?_⟩
  intro hsvc
  cases e with
  | dynamoGet tb n => simp [Effect.service] at hsvc
  | dynamoPut tb n c => simp [Effect.service] at hsvc
  | discordPost m c => simp [Effect.service] at hsvc
  | codepipelineUpdate n d =>
    by_cases h1 : event.state = "SUCCEEDED"
    · exfalso
      unfold handler at he
      rw [if_pos h1] at he
      cases henv : env.discordWebhookUrl <;>
        simp [sendDiscordNotification, henv] at he
    · by_cases h2 : event.state = "FAILED"
      · refine ⟨h2, ?_⟩
        by_cases hth : maxFailuresValue env ≤ (t event.pipeline).getD 0 + 1
        · exact hth
        · exfalso
          unfold handler at he
          rw [if_neg h1, if_pos h2] at he
          cases henv : env.discordWebhookUrl <;> cases ho0 : httpOk 0 <;>
            simp [sendDiscordNotification, henv, ho0, updatePipelineState, hth] at he
      · exfalso
        unfold handler at he
        rw [if_neg h1, if_neg h2] at he
        simp at he

/-- Witness for the amended claim C6 at the CodePipeline effect of a concrete
disabling run. -/
theorem handler_effects_services_witness :
    (Effect.codepipelineUpdate "p" true ∈
      (handler envD alwaysOk (emptyTable.put "p" 2) evFailed).effects) ∧
    ((Effect.codepipelineUpdate "p" true).service ∈
        [ExternalService.dynamodb, .discordWebhook, .codepipeline] ∧
      ((Effect.codepipelineUpdate "p" true).service = .codepipeline →
        evFailed.state = "FAILED" ∧
        maxFailuresValue envD ≤ ((emptyTable.put "p" 2) evFailed.pipeline).getD 0 + 1)) :=
  ⟨by decide, handler_effects_services envD alwaysOk (emptyTable.put "p" 2) evFailed
    (Effect.codepipelineUpdate "p" true) (by decide)⟩

/-- Claim C7: for any event whose state is not FAILED — SUCCEEDED included —
the handler leaves the failure-count table unchanged and performs no DynamoDB
write at all. -/
theorem handler_non_failed_preserves_counter (env : LambdaEnv) (httpOk : Nat → Bool)
    (t : Table) (event : PipelineEvent) (hs : event.state ≠ "FAILED") :
    (handler env httpOk t event).table = t ∧
    ∀ tbl name c, Effect.dynamoPut tbl name c ∉ (handler env httpOk t event).effects := by
  unfold handler
  by_cases h1 : event.state = "SUCCEEDED"
  · rw [if_pos h1]
    cases henv : env.discordWebhookUrl <;> simp [sendDiscordNotification, henv]
  · rw [if_neg h1, if_neg hs]
    simp

/-- Witness for claim C7 at a concrete SUCCEEDED event. -/
theorem handler_non_failed_preserves_counter_witness :
    evSucceeded.state ≠ "FAILED" ∧
    ((handler envD alwaysOk emptyTable evSucceeded).table = emptyTable ∧
    ∀ tbl name c, Effect.dynamoPut tbl name c ∉
      (handler envD alwaysOk emptyTable evSucceeded).effects) :=
  ⟨by decide, handler_non_failed_preserves_counter envD alwaysOk emptyTable evSucceeded
    (by decide)⟩

/-- Claim C8, counterexample: after the reachable history FAILED (delivered),
FAILED (delivered), FAILED (red notification fails, so the execution throws
after persisting the count 3), a SUCCEEDED execution completes without
throwing yet leaves the stored counter at 3, which is not below the
threshold 3. -/
theorem counter_at_threshold_after_complete_cex :
    isOk (handler envD alwaysOk
      (runHistory envD emptyTable
        [(evFailed, alwaysOk), (evFailed, alwaysOk), (evFailed, redFails)])
      evSucceeded).result = true ∧
    (handler envD alwaysOk
      (runHistory envD emptyTable
        [(evFailed, alwaysOk), (evFailed, alwaysOk), (evFailed, redFails)])
      evSucceeded).table "p" = some 3 ∧
    ¬ ((handler envD alwaysOk
        (runHistory envD emptyTable
          [(evFailed, alwaysOk), (evFailed, alwaysOk), (evFailed, redFails)])
        evSucceeded).table "p").getD 0 < maxFailuresValue envD := by
  refine ⟨by decide, by decide, by decide⟩

/-- Claim C8 as amended: when every execution of the history completes without
throwing (and the threshold is at least 1), every stored counter stays
strictly below `MAX_FAILURES`: reaching the threshold resets the counter to 0
in the execution that disables the pipeline, and otherwise the counter grows
by one from a value below the threshold. -/
theorem counters_below_threshold_of_all_complete (env : LambdaEnv)
    (evs : List (PipelineEvent × (Nat → Bool)))
    (hmax : 1 ≤ maxFailuresValue env)
    (hc : historyCompletes env emptyTable evs = true) :
    ∀ name, (runHistory env emptyTable evs name).getD 0 < maxFailuresValue env :=
  runHistory_below env hmax evs emptyTable
    (fun _ => by simp [emptyTable]; omega) hc

/-- Witness for the amended claim C8 at a concrete completing history. -/
theorem counters_below_threshold_witness :
    1 ≤ maxFailuresValue envD ∧
    historyCompletes envD emptyTable [(evFailed, alwaysOk), (evSucceeded, alwaysOk)] = true ∧
    (runHistory envD emptyTable [(evFailed, alwaysOk), (evSucceeded, alwaysOk)] "p").getD 0 <
      maxFailuresValue envD :=
  ⟨by decide, by decide,
    counters_below_threshold_of_all_complete envD
      [(evFailed, alwaysOk), (evSucceeded, alwaysOk)] (by decide) (by decide) "p"⟩

/-- Claim C9: on a FAILED event the incremented counter is written to DynamoDB
before any Discord POST is attempted (every webhook effect sits at index 2 or
later in the trace, after the get and the put), and when the red notification
throws — webhook unset or HTTP failure — the handler rethrows while the
incremented count has already taken durable effect. -/
theorem handler_failed_persists_before_notify (env : LambdaEnv) (httpOk : Nat → Bool)
    (t : Table) (event : PipelineEvent) (hs : event.state = "FAILED") :
    (handler env httpOk t event).effects.take 2 =
      [Effect.dynamoGet env.failureCountTable event.pipeline,
       Effect.dynamoPut env.failureCountTable event.pipeline
         ((t event.pipeline).getD 0 + 1)] ∧
    (∀ i m c, (handler env httpOk t event).effects.get? i =
        some (.discordPost m c) → 2 ≤ i) ∧
    (env.discordWebhookUrl = none ∨ httpOk 0 = false →
      isOk (handler env httpOk t event).result = false ∧
      (handler env httpOk t event).table event.pipeline =
        some ((t event.pipeline).getD 0 + 1)) := by
  have h1 : ¬ event.state = "SUCCEEDED" := by rw [hs]; decide
  have htake : (handler env httpOk t event).effects.take 2 =
      [Effect.dynamoGet env.failureCountTable event.pipeline,
       Effect.dynamoPut env.failureCountTable event.pipeline
         ((t event.pipeline).getD 0 + 1)] := by
    unfold handler
    rw [if_neg h1, if_pos hs]
    by_cases hth : maxFailuresValue env ≤ (t event.pipeline).getD 0 + 1 <;>
      cases henv : env.discordWebhookUrl <;> cases ho0 : httpOk 0 <;>
        simp [sendDiscordNotification, henv, ho0, updatePipelineState, hth]
  refine ⟨htake, ?_, ?_⟩
  · obtain ⟨rest, hl⟩ := take_two_shape _ _ _ htake
    intro i m c hi
    rw [hl] at hi
    match i with
    | 0 => simp at hi
    | 1 => simp at hi
    | n + 2 => omega
  · intro hfail
    unfold handler
    rw [if_neg h1, if_pos hs]
    rcases hfail with hn | hf
    · simp [sendDiscordNotification, hn, isOk, Table.put]
    · cases henv : env.discordWebhookUrl <;>
        simp [sendDiscordNotification, henv, hf, isOk, Table.put]

/-- Witness for claim C9 at a concrete FAILED event whose red notification
fails. -/
theorem handler_failed_persists_before_notify_witness :
    evFailed.state = "FAILED" ∧
    ((handler envD redFails emptyTable evFailed).effects.take 2 =
      [Effect.dynamoGet envD.failureCountTable evFailed.pipeline,
       Effect.dynamoPut envD.failureCountTable evFailed.pipeline
         ((emptyTable evFailed.pipeline).getD 0 + 1)] ∧
    (∀ i m c, (handler envD redFails emptyTable evFailed).effects.get? i =
        some (.discordPost m c) → 2 ≤ i) ∧
    (envD.discordWebhookUrl = none ∨ redFails 0 = false →
      isOk (handler envD redFails emptyTable evFailed).result = false ∧
      (handler envD redFails emptyTable evFailed).table evFailed.pipeline =
        some ((emptyTable evFailed.pipeline).getD 0 + 1))) :=
  ⟨by decide, handler_failed_persists_before_notify envD redFails emptyTable evFailed
    (by decide)⟩
